import Mathlib

/-!
Shallow embedding of the honeybee radiance annual-daylight core
(`analysispoint.py`, `analysisgrid.py`, `analysisresult.py`).

Numbers are embedded as `ℚ` (the Python sources enable true division via
`from __future__ import division`), hours-of-year as `Nat`, blind-state
indices as `Int` (so that the `-1` "source excluded" sentinel is a value),
occupancy schedules as `List Nat` with membership, and fallible code as
`Except PointError`.
-/

namespace Honeybee

deriving instance DecidableEq for Except

/-- Error conditions raised by the Python sources, collapsed to the
distinctions the callers can observe. -/
inductive PointError where
  /-- Python `ValueError('Hourly values are not available for {hoy}')` -/
  | valueNotAvailable (hoy : Nat)
  /-- a failed `assert` statement -/
  | assertionError
  /-- Python `ValueError('There is 0 hours available in the schedule.')` -/
  | emptySchedule
  /-- a Python `TypeError` (e.g. unpacking `None`) -/
  | typeError
  /-- any other `ValueError`, carrying its message -/
  | valueError (msg : String)
  deriving DecidableEq, Repr

/-- A light source: a name and the ordered list of its shading-state names
(state 0 is the reference state), as stored in `AnalysisPoint.sources`. -/
structure LightSource where
  name : String
  states : List String
  deriving DecidableEq, Repr

/-- One analysis point (sensor).  `values` is the sparse per-sensor store
`_values` keyed by (source id, state id, hour of year); each entry is the
(total, direct) pair where the direct component may be absent.
`isDirectLoaded` is the `_is_directLoaded` flag, `hoys` the hours of the
grid this point belongs to, and `id` its global index. -/
structure AnalysisPoint where
  sources : List LightSource
  values : List ((Nat × Int × Nat) × (ℚ × Option ℚ))
  isDirectLoaded : Bool
  hoys : List Nat
  id : Int
  deriving DecidableEq, Repr

/-- Lookup in the sparse store: first entry with the given
(source, state, hour) key, mirroring `hoy in self._values[sid][stateid]`. -/
def lookupVal (vals : List ((Nat × Int × Nat) × (ℚ × Option ℚ)))
    (key : Nat × Int × Nat) : Option (ℚ × Option ℚ) :=
  (vals.find? (fun p => p.1 = key)).map (·.2)

/-- Python `set_coupled_value` (analysispoint.py:263): inserts/overwrites the
(total, direct) entry at (source, state, hour) and sets the
`_is_directLoaded` flag. -/
def AnalysisPoint.set_coupled_value (ap : AnalysisPoint) (total direct : ℚ)
    (hoy : Nat) (sid : Nat) (stateid : Int) : AnalysisPoint :=
  { ap with
    values := ((sid, stateid, hoy), (total, some direct)) ::
      ap.values.filter (fun p => ¬ p.1 = (sid, stateid, hoy)),
    isDirectLoaded := true }

/-- Python's `x or d` applied to an optional number: `None` and `0` are
falsy and give the default. -/
def orDefaultQ (x : Option ℚ) (d : ℚ) : ℚ :=
  match x with
  | none => d
  | some v => if v = 0 then d else v

/-- Python's `occ_schedule or default` applied to an optional hour set:
`None` and the empty set are falsy and give the default. -/
def schedOrDefault (s : Option (List Nat)) (d : List Nat) : List Nat :=
  match s with
  | none => d
  | some l => if l.isEmpty then d else l

/-- Python's `max` over a non-empty list of integers (the empty case never
arises at the call site, which guards on emptiness first). -/
def pymaxInt (l : List Int) : Int :=
  match l with
  | [] => 0
  | x :: xs => xs.foldl max x

/-- Python `longest_state_ids` (analysispoint.py:192): for each source take
`len(states) - 1`, fail if there are no sources, and otherwise return the
`max + 1` combinations `i ↦ (min s i over the sources)`. -/
def longest_state_ids (sources : List LightSource) :
    Except PointError (List (List Int)) :=
  let states := sources.map (fun s => (s.states.length : Int) - 1)
  if states.isEmpty then
    .error (.valueError "This sensor is associated with no dynamic blinds.")
  else
    .ok ((List.range (pymaxInt states + 1).toNat).map
      (fun (i : Nat) => states.map (fun s => min s (i : Int))))

/-- Method form of `longest_state_ids` on an analysis point. -/
def AnalysisPoint.longest_state_ids (ap : AnalysisPoint) :
    Except PointError (List (List Int)) :=
  Honeybee.longest_state_ids ap.sources

/-- Maximum state count over the sources, as in claim C3's
`max(c_i)` (each `c_i` counts the reference state). -/
def maxStateCount (sources : List LightSource) : Nat :=
  (sources.map (fun s => s.states.length)).foldr max 0

theorem max_sub_one (a b : Int) : max a b - 1 = max (a - 1) (b - 1) := by
  rcases le_total a b with h | h
  · rw [max_eq_right h, max_eq_right (by omega : a - 1 ≤ b - 1)]
  · rw [max_eq_left h, max_eq_left (by omega : b - 1 ≤ a - 1)]

theorem foldl_max_counts (cs : List Nat) :
    ∀ x : Int, -1 ≤ x →
      (List.map (fun n : Nat => (n : Int) - 1) cs).foldl max x =
        max x (((cs.foldr max 0 : Nat) : Int) - 1) := by
  induction cs with
  | nil =>
    intro x hx
    simp only [List.map_nil, List.foldl_nil, List.foldr_nil, Nat.cast_zero]
    omega
  | cons c cs ih =>
    intro x hx
    simp only [List.map_cons, List.foldl_cons, List.foldr_cons]
    rw [ih (max x ((c : Int) - 1)) (le_trans hx (le_max_left _ _))]
    rw [Nat.cast_max, max_sub_one]
    rw [max_assoc]

theorem longest_state_ids_length (sources : List LightSource)
    (hne : sources ≠ []) (hst : ∀ s ∈ sources, s.states ≠ []) :
    (pymaxInt (sources.map (fun s => (s.states.length : Int) - 1)) + 1).toNat =
      maxStateCount sources := by
  cases sources with
  | nil => exact absurd rfl hne
  | cons s₀ rest =>
    have h₀ : s₀.states ≠ [] := hst s₀ (List.mem_cons_self _ _)
    have h₀' : 1 ≤ s₀.states.length := List.length_pos.mpr h₀
    simp only [List.map_cons, pymaxInt]
    have hmm : rest.map (fun s => (s.states.length : Int) - 1) =
        List.map (fun n : Nat => (n : Int) - 1)
          (rest.map (fun s => s.states.length)) := by
      rw [List.map_map]
      rfl
    rw [hmm, foldl_max_counts _ ((s₀.states.length : Int) - 1) (by omega)]
    rw [maxStateCount, List.map_cons, List.foldr_cons]
    have hmax : max ((s₀.states.length : Int) - 1)
        ((((rest.map (fun s => s.states.length)).foldr max 0 : Nat) : Int) - 1)
          + 1 =
        ((max s₀.states.length
          ((rest.map (fun s => s.states.length)).foldr max 0) : Nat) : Int) := by
      rw [Nat.cast_max]
      omega
    rw [hmax, Int.toNat_natCast]

/-- The accumulation `try: direct += d; except TypeError: pass` used by
`combined_value_by_id`: when either side is absent the direct accumulator
is left unchanged. -/
def addOpt (acc d : Option ℚ) : Option ℚ :=
  match acc, d with
  | some a, some b => some (a + b)
  | _, _ => acc

/-- The per-source loop of `combined_value_by_id` (analysispoint.py:477-493):
walk the (source id, state id) pairs, contribute (0, 0) for the `-1`
sentinel, fail with `ValueNotAvailable` carrying the hour for a missing
entry, and otherwise accumulate the stored (total, direct) pair. -/
def combineLoop (vals : List ((Nat × Int × Nat) × (ℚ × Option ℚ)))
    (hoy : Nat) :
    List (Nat × Int) → ℚ × Option ℚ → Except PointError (ℚ × Option ℚ)
  | [], acc => .ok acc
  | (sid, stateid) :: rest, (total, direct) =>
    if stateid = -1 then
      combineLoop vals hoy rest (total + 0, addOpt direct (some 0))
    else
      match lookupVal vals (sid, stateid, hoy) with
      | none => .error (.valueNotAvailable hoy)
      | some (t, d) => combineLoop vals hoy rest (total + t, addOpt direct d)

/-- Sequence a fallible computation over a list, collecting the results in
order and aborting at the first error (the embedding of a Python loop that
may raise). -/
def mapExcept {α β : Type} (f : α → Except PointError β) :
    List α → Except PointError (List β)
  | [] => .ok []
  | a :: l => (f a).bind (fun b => (mapExcept f l).bind (fun bs => .ok (b :: bs)))

/-- Python `combined_value_by_id` (analysispoint.py:456): defaults a falsy
combination to all-zero states, asserts one state per source, and runs the
accumulation loop starting from total 0 and direct 0-or-absent depending on
the `_is_directLoaded` flag. -/
def AnalysisPoint.combined_value_by_id (ap : AnalysisPoint) (hoy : Nat)
    (idsOpt : Option (List Int)) : Except PointError (ℚ × Option ℚ) :=
  let ids := match idsOpt with
    | none => List.replicate ap.sources.length 0
    | some l =>
      if l.isEmpty then List.replicate ap.sources.length 0 else l
  if ids.length = ap.sources.length then
    combineLoop ap.values hoy ids.enum
      (0, if ap.isDirectLoaded then some 0 else none)
  else .error .assertionError

/-- Python `combined_values_by_id` (analysispoint.py:498): defaults a falsy
per-hour combination list to all-zero states for every hour, asserts one
combination per hour, and yields the accumulated (total, direct) pair for
each hour in order.  (The Python generator is always consumed whole by its
callers, so it is embedded as an `Except` over the materialised list.) -/
def AnalysisPoint.combined_values_by_id (ap : AnalysisPoint)
    (hoys : List Nat) (idsOpt : Option (List (List Int))) :
    Except PointError (List (ℚ × Option ℚ)) :=
  let ids := match idsOpt with
    | none =>
      List.replicate hoys.length (List.replicate ap.sources.length 0)
    | some l =>
      if l.isEmpty then
        List.replicate hoys.length (List.replicate ap.sources.length 0)
      else l
  if ids.length = hoys.length then
    mapExcept (fun p =>
      combineLoop ap.values p.1 p.2.enum
        (0, if ap.isDirectLoaded then some 0 else none)) (hoys.zip ids)
  else .error .assertionError

/-- Total contribution of one (source id, state id) pair at an hour:
0 for the `-1` sentinel, else the stored total. -/
def entryTotal (vals : List ((Nat × Int × Nat) × (ℚ × Option ℚ)))
    (hoy : Nat) (p : Nat × Int) : ℚ :=
  if p.2 = -1 then 0 else ((lookupVal vals (p.1, p.2, hoy)).getD (0, none)).1

/-- Direct contribution of one (source id, state id) pair at an hour:
0 for the `-1` sentinel, else the stored direct value (0 if absent). -/
def entryDirect (vals : List ((Nat × Int × Nat) × (ℚ × Option ℚ)))
    (hoy : Nat) (p : Nat × Int) : ℚ :=
  if p.2 = -1 then 0
  else (((lookupVal vals (p.1, p.2, hoy)).getD (0, none)).2).getD 0

theorem combineLoop_ok (vals : List ((Nat × Int × Nat) × (ℚ × Option ℚ)))
    (hoy : Nat) (l : List (Nat × Int))
    (hpres : ∀ p ∈ l, p.2 ≠ -1 →
      ∃ t d, lookupVal vals (p.1, p.2, hoy) = some (t, some d)) :
    ∀ (T : ℚ) (D : Option ℚ),
      combineLoop vals hoy l (T, D) =
        .ok (T + (l.map (entryTotal vals hoy)).sum,
          match D with
          | none => none
          | some x => some (x + (l.map (entryDirect vals hoy)).sum)) := by
  induction l with
  | nil =>
    intro T D
    cases D <;> simp [combineLoop]
  | cons p rest ih =>
    intro T D
    obtain ⟨sid, stateid⟩ := p
    by_cases hs : stateid = -1
    · subst hs
      have ih' := ih (fun q hq => hpres q (List.mem_cons_of_mem _ hq))
      rw [List.map_cons, List.map_cons, List.sum_cons, List.sum_cons]
      show combineLoop vals hoy _ _ = _
      rw [combineLoop, if_pos rfl, ih']
      cases D <;>
        simp [addOpt, entryTotal, entryDirect, add_assoc]
    · obtain ⟨t, d, hlook⟩ :=
        hpres (sid, stateid) (List.mem_cons_self _ _) hs
      have ih' := ih (fun q hq => hpres q (List.mem_cons_of_mem _ hq))
      rw [List.map_cons, List.map_cons, List.sum_cons, List.sum_cons]
      show combineLoop vals hoy _ _ = _
      rw [combineLoop, if_neg hs, hlook]
      show combineLoop vals hoy rest (T + t, addOpt D (some d)) = _
      rw [ih']
      cases D <;>
        simp [addOpt, entryTotal, entryDirect, hs, hlook, add_assoc]

theorem combineLoop_missing
    (vals : List ((Nat × Int × Nat) × (ℚ × Option ℚ))) (hoy : Nat)
    (l : List (Nat × Int))
    (hmiss : ∃ p ∈ l, p.2 ≠ -1 ∧ lookupVal vals (p.1, p.2, hoy) = none) :
    ∀ acc, combineLoop vals hoy l acc = .error (.valueNotAvailable hoy) := by
  induction l with
  | nil => exact absurd hmiss (by simp)
  | cons q rest ih =>
    intro acc
    obtain ⟨T, D⟩ := acc
    obtain ⟨p, hp, hpne, hplook⟩ := hmiss
    obtain ⟨sid, stateid⟩ := q
    by_cases hs : stateid = -1
    · subst hs
      have hp' : p ∈ rest := by
        rcases List.mem_cons.mp hp with h | h
        · exact absurd (by rw [h]) hpne
        · exact h
      show combineLoop vals hoy _ _ = _
      rw [combineLoop, if_pos rfl]
      exact ih ⟨p, hp', hpne, hplook⟩ _
    · show combineLoop vals hoy _ _ = _
      rw [combineLoop, if_neg hs]
      cases hlook : lookupVal vals (sid, stateid, hoy) with
      | none => rfl
      | some v =>
        obtain ⟨t, d⟩ := v
        have hp' : p ∈ rest := by
          rcases List.mem_cons.mp hp with h | h
          · rw [h] at hplook
            rw [hplook] at hlook
            exact absurd hlook (by simp)
          · exact h
        exact ih ⟨p, hp', hpne, hplook⟩ _

/-- The accumulation loop shared textually by `daylight_autonomy`
(analysispoint.py:751-759) and `_calculate_daylight_autonomy`
(analysispoint.py:875-883): state is (DA, cda, total_hour_count); hours
outside the schedule decrement the denominator and contribute nothing. -/
def daLoop (t : ℚ) (sched : List Nat) :
    List (Nat × ℚ) → ℚ × ℚ × Int → ℚ × ℚ × Int
  | [], acc => acc
  | (h, v) :: rest, (da, cda, thc) =>
    if h ∈ sched then
      if t ≤ v then daLoop t sched rest (da + 1, cda + 1, thc)
      else daLoop t sched rest (da, cda + v / t, thc)
    else daLoop t sched rest (da, cda, thc - 1)

/-- Python `daylight_autonomy`'s loop body as found in the instance method
(analysispoint.py:731-764), applied to the already-resolved per-hour total
values: threshold defaulted by `or 300`, schedule defaulted by
`or set(hours)`, percentages over the decremented hour count, and the
zero-scheduled-hours failure. -/
def daylight_autonomy_core (values : List ℚ) (hoys : List Nat)
    (da_threshhold : Option ℚ) (occ_schedule : Option (List Nat)) :
    Except PointError (ℚ × ℚ) :=
  let t := orDefaultQ da_threshhold 300
  let schedule := schedOrDefault occ_schedule hoys
  let r := daLoop t schedule (hoys.zip values) (0, 0, (hoys.length : Int))
  if r.2.2 = 0 then .error .emptySchedule
  else .ok (100 * r.1 / (r.2.2 : ℚ), 100 * r.2.1 / (r.2.2 : ℚ))

/-- Python `_calculate_daylight_autonomy` (analysispoint.py:855-888): the static
variant used by the streaming path; its body repeats the method's loop.
(The unused `blinds_state_ids` parameter is omitted.) -/
def calculate_daylight_autonomy (values : List ℚ) (hoys : List Nat)
    (da_threshhold : Option ℚ) (occ_schedule : Option (List Nat)) :
    Except PointError (ℚ × ℚ) :=
  let t := orDefaultQ da_threshhold 300
  let schedule := schedOrDefault occ_schedule hoys
  let r := daLoop t schedule (hoys.zip values) (0, 0, (hoys.length : Int))
  if r.2.2 = 0 then .error .emptySchedule
  else .ok (100 * r.1 / (r.2.2 : ℚ), 100 * r.2.1 / (r.2.2 : ℚ))

/-- Python `daylight_autonomy` (analysispoint.py:731): resolves the per-hour
totals through `combined_values_by_id` and reduces them with the loop. -/
def AnalysisPoint.daylight_autonomy (ap : AnalysisPoint)
    (da_threshhold : Option ℚ) (ids : Option (List (List Int)))
    (occ_schedule : Option (List Nat)) : Except PointError (ℚ × ℚ) :=
  (ap.combined_values_by_id ap.hoys ids).bind (fun vs =>
    daylight_autonomy_core (vs.map (·.1)) ap.hoys da_threshhold occ_schedule)

/-- The classification loop of `useful_daylight_illuminance`
(analysispoint.py:713-722): state is (useful, low, high, hour count). -/
def udiLoop (udiMin udiMax : ℚ) (sched : List Nat) :
    List (Nat × ℚ) → ℚ × ℚ × ℚ × Int → ℚ × ℚ × ℚ × Int
  | [], acc => acc
  | (h, v) :: rest, (u, l, m, thc) =>
    if h ∈ sched then
      if v < udiMin then udiLoop udiMin udiMax sched rest (u, l + 1, m, thc)
      else if udiMax < v then udiLoop udiMin udiMax sched rest (u, l, m + 1, thc)
      else udiLoop udiMin udiMax sched rest (u + 1, l, m, thc)
    else udiLoop udiMin udiMax sched rest (u, l, m, thc - 1)

/-- Python `useful_daylight_illuminance`'s loop body (analysispoint.py:690-728)
applied to the already-resolved totals.  Returns the percentages in the
source's order: (useful, low, high). -/
def useful_daylight_illuminance_core (values : List ℚ) (hoys : List Nat)
    (udi_min_max : Option (ℚ × ℚ)) (occ_schedule : Option (List Nat)) :
    Except PointError (ℚ × ℚ × ℚ) :=
  let mm := udi_min_max.getD (100, 2000)
  let schedule := schedOrDefault occ_schedule hoys
  let r := udiLoop mm.1 mm.2 schedule (hoys.zip values)
    (0, 0, 0, (hoys.length : Int))
  if r.2.2.2 = 0 then .error .emptySchedule
  else .ok (100 * r.1 / (r.2.2.2 : ℚ), 100 * r.2.1 / (r.2.2.2 : ℚ),
    100 * r.2.2.1 / (r.2.2.2 : ℚ))

/-- Python `useful_daylight_illuminance` (analysispoint.py:690): resolves the
per-hour totals through `combined_values_by_id` and classifies them. -/
def AnalysisPoint.useful_daylight_illuminance (ap : AnalysisPoint)
    (udi_min_max : Option (ℚ × ℚ)) (ids : Option (List (List Int)))
    (occ_schedule : Option (List Nat)) : Except PointError (ℚ × ℚ × ℚ) :=
  (ap.combined_values_by_id ap.hoys ids).bind (fun vs =>
    useful_daylight_illuminance_core (vs.map (·.1)) ap.hoys udi_min_max
      occ_schedule)

/-- The single-pass loop of `_calculate_annual_metrics`
(analysispoint.py:830-845): DA/cDA accumulation followed by UDI
classification for each scheduled hour. -/
def amLoop (t udiMin udiMax : ℚ) (sched : List Nat) :
    List (Nat × ℚ) → ℚ × ℚ × ℚ × ℚ × ℚ × Int → ℚ × ℚ × ℚ × ℚ × ℚ × Int
  | [], acc => acc
  | (h, v) :: rest, (da, cda, u, l, m, thc) =>
    if h ∈ sched then
      let da' := if t ≤ v then da + 1 else da
      let cda' := if t ≤ v then cda + 1 else cda + v / t
      if v < udiMin then amLoop t udiMin udiMax sched rest (da', cda', u, l + 1, m, thc)
      else if udiMax < v then amLoop t udiMin udiMax sched rest (da', cda', u, l, m + 1, thc)
      else amLoop t udiMin udiMax sched rest (da', cda', u + 1, l, m, thc)
    else amLoop t udiMin udiMax sched rest (da, cda, u, l, m, thc - 1)

/-- Python `_calculate_annual_metrics` (analysispoint.py:816-852).  The source
unpacks `udiMin, udiMax = udi_min_max` BEFORE the line that would default
`udi_min_max` to (100, 2000), so a `None` input raises `TypeError`; that
defaulting line is dead code.  Its default schedule is
`Schedule.from_workday_hours()`; schedule.py is not under src, so the
workday hour set is taken as the parameter `workday`
(Modelled from the spec: the office-schedule collaborator).
Returns (DA, cDA, UDI-useful, UDI-low, UDI-high) percentages. -/
def calculate_annual_metrics (workday : List Nat) (values : List ℚ)
    (hours : List Nat) (da_threshhold : Option ℚ)
    (udi_min_max : Option (ℚ × ℚ)) (occ_schedule : Option (List Nat)) :
    Except PointError (ℚ × ℚ × ℚ × ℚ × ℚ) :=
  match udi_min_max with
  | none => .error .typeError
  | some mm =>
    let t := orDefaultQ da_threshhold 300
    let schedule := schedOrDefault occ_schedule workday
    let r := amLoop t mm.1 mm.2 schedule (hours.zip values)
      (0, 0, 0, 0, 0, (hours.length : Int))
    if r.2.2.2.2.2 = 0 then .error .emptySchedule
    else .ok (100 * r.1 / (r.2.2.2.2.2 : ℚ), 100 * r.2.1 / (r.2.2.2.2.2 : ℚ),
      100 * r.2.2.1 / (r.2.2.2.2.2 : ℚ), 100 * r.2.2.2.1 / (r.2.2.2.2.2 : ℚ),
      100 * r.2.2.2.2.1 / (r.2.2.2.2.2 : ℚ))

/-- Python `annual_metrics` (analysispoint.py:665): resolves per-hour totals and
hands them to `_calculate_annual_metrics`. -/
def AnalysisPoint.annual_metrics (ap : AnalysisPoint) (workday : List Nat)
    (da_threshhold : Option ℚ) (udi_min_max : Option (ℚ × ℚ))
    (ids : Option (List (List Int))) (occ_schedule : Option (List Nat)) :
    Except PointError (ℚ × ℚ × ℚ × ℚ × ℚ) :=
  (ap.combined_values_by_id ap.hoys ids).bind (fun vs =>
    calculate_annual_metrics workday (vs.map (·.1)) ap.hoys da_threshhold
      udi_min_max occ_schedule)

/-- Python `_logic` (analysispoint.py:154-161), the default blind-control
predicate: `args[0] > 3000`.  At its call site (line 649) the first
positional argument is the combined TOTAL illuminance `ill` (the direct
value is the second argument and is not consulted). -/
def logicDefault (ill : ℚ) (_dirv : Option ℚ) (_h : Nat) : Bool :=
  decide (3000 < ill)

/-- The inner `for state in range(len(comb_ids))` search of `blinds_state`
(analysispoint.py:647-655): return the first combination index whose
values make the logic return false, together with those values. -/
def findState (logic : ℚ → Option ℚ → Nat → Bool) (h : Nat) :
    List (ℚ × Option ℚ) → Nat → Option (Nat × ℚ × Option ℚ)
  | [], _ => none
  | r :: rest, i =>
    if logic r.1 r.2 h then findState logic h rest (i + 1)
    else some (i, r.1, r.2)

/-- One hour of the greedy loop of `blinds_state`
(analysispoint.py:639-659): if some combination passes, take the first one
(success 1 when it is not the most-open index 0, else 0); if every
combination fails the logic, keep the pre-initialised last (darkest) index
with the last combination's values and success −1. -/
def greedyHour (logic : ℚ → Option ℚ → Nat → Bool) (ncombs : Nat)
    (results : List (List (ℚ × Option ℚ))) (k : Nat) (h : Nat) :
    Nat × ℚ × Option ℚ × Int :=
  let col := results.map (fun row => row.getD k (0, none))
  match findState logic h col 0 with
  | some (i, ill, dirv) => (i, ill, dirv, if 0 < i then 1 else 0)
  | none =>
    (ncombs - 1, (col.getLast?.getD (0, none)).1,
      (col.getLast?.getD (0, none)).2, -1)

/-- Python `blinds_state` (analysispoint.py:594-662): hours default to the
sensor's, a falsy combination list defaults to `longest_state_ids`, each
combination's per-hour results come from `combined_values_by_id`, and the
greedy per-hour loop selects a state.  Returns (chosen combinations,
chosen indices, total values, direct values, success flags).  (The
name-to-id resolution branch is the identity on integer state ids and is
embedded as such.) -/
def AnalysisPoint.blinds_state (ap : AnalysisPoint)
    (logic : ℚ → Option ℚ → Nat → Bool) (hoysOpt : Option (List Nat))
    (combosOpt : Option (List (List Int))) :
    Except PointError
      (List (List Int) × List Nat × List ℚ × List (Option ℚ) × List Int) :=
  let hoys := match hoysOpt with
    | none => ap.hoys
    | some l => if l.isEmpty then ap.hoys else l
  let combRes := match combosOpt with
    | none => ap.longest_state_ids
    | some l => if l.isEmpty then ap.longest_state_ids else .ok l
  combRes.bind (fun comb_ids =>
    (mapExcept (fun state =>
        ap.combined_values_by_id hoys
          (some (List.replicate hoys.length state))) comb_ids).bind
      (fun results =>
        let out := hoys.enum.map (fun p =>
          greedyHour logic comb_ids.length results p.1 p.2)
        .ok (out.map (fun o => comb_ids.getD o.1 []),
          out.map (·.1), out.map (·.2.1), out.map (·.2.2.1),
          out.map (·.2.2.2))))

/-- A pending result-file descriptor, as carried in the grid's
`_totalFiles` / `_directFiles` sequences:
(path, hours, start line, has-header, mode). -/
structure ResultFileDescriptor where
  file_path : String
  hoys : List Nat
  start_line : Nat
  header : Bool
  mode : Nat
  deriving DecidableEq, Repr

/-- An analysis grid (analysisgrid.py): its ordered points and the pending
total/direct result-file descriptor sequences. -/
structure AnalysisGrid where
  analysis_points : List AnalysisPoint
  totalFiles : List ResultFileDescriptor
  directFiles : List ResultFileDescriptor
  deriving DecidableEq, Repr

/-- Python `renumber` (analysisgrid.py:157-169): assign `start_from + count` to
each point in order and return `start_from + count` for the final count —
the id of the LAST point.  On an empty grid the loop variable is unbound
and the method fails (`NameError`), embedded as `none`. -/
def AnalysisGrid.renumber (g : AnalysisGrid) (start_from : Int) :
    Option (AnalysisGrid × Int) :=
  if g.analysis_points.isEmpty then none
  else some
    ({ g with analysis_points := (g.analysis_points.enum.map
        (fun p => { p.2 with id := start_from + (p.1 : Int) })) },
      start_from + ((g.analysis_points.length : Int) - 1))

/-- Python `unload` (analysisgrid.py:171-179): reset `_totalFiles` and
`_directFiles` to empty lists and clear every point's sources and
values. -/
def AnalysisGrid.unload (g : AnalysisGrid) : AnalysisGrid :=
  { g with
    totalFiles := [],
    directFiles := [],
    analysis_points := g.analysis_points.map
      (fun p => { p with sources := [], values := [] }) }

/-- Grid context for the `AnalysisResult` metric methods
(analysisresult.py): the owned points, the grid's hours, the light-source
count, and the workday hour set (Modelled from the spec: the default
occupancy schedule `Schedule.from_workday_hours()`; schedule.py is not
under src). -/
structure GridContext where
  analysis_points : List AnalysisPoint
  hoys : List Nat
  sources_count : Nat
  workday : List Nat

/-- The `[[0] * len(self.sources)] * len(hoys)` default per-hour blind
combination list used by the grid-level methods. -/
def defaultStateIds (g : GridContext) : List (List Int) :=
  List.replicate g.hoys.length (List.replicate g.sources_count 0)

/-- The `res[c].append(r)` collection pattern of analysisresult.py:
per-sensor 5-tuples gathered into five per-metric lists. -/
def transpose5 (rs : List (ℚ × ℚ × ℚ × ℚ × ℚ)) :
    List ℚ × List ℚ × List ℚ × List ℚ × List ℚ :=
  (rs.map (·.1), rs.map (·.2.1), rs.map (·.2.2.1), rs.map (·.2.2.2.1),
    rs.map (·.2.2.2.2))

/-- Python `AnalysisResult.annual_metrics`, memory-resident branch
(analysisresult.py:272-288): default the parameters at grid level
(threshold 300, UDI bounds (100, 3000), workday schedule, all-zero blind
states), then reduce every sensor through its `annual_metrics`. -/
def gridAnnualMetricsLoaded (g : GridContext) (thr : Option ℚ)
    (udi : Option (ℚ × ℚ)) (ids : Option (List (List Int)))
    (sched : Option (List Nat)) :
    Except PointError (List ℚ × List ℚ × List ℚ × List ℚ × List ℚ) :=
  let t := orDefaultQ thr 300
  let mm := udi.getD (100, 3000)
  let sc := schedOrDefault sched g.workday
  let ids' := match ids with
    | none => defaultStateIds g
    | some l => if l.isEmpty then defaultStateIds g else l
  (mapExcept (fun ap =>
      ap.annual_metrics g.workday (some t) (some mm) (some ids') (some sc))
    g.analysis_points).bind (fun rs => .ok (transpose5 rs))

/-- Python `AnalysisResult.annual_metrics`, streaming branch
(analysisresult.py:289-328): the same grid-level defaults, then one parsed
result-file row per sensor reduced through `_calculate_annual_metrics`.
`rows` stands for the `int(float(r))`-parsed whitespace-split line values
and `fileHoys` for the hour list of the single result-file descriptor; the
file I/O itself (size check, header parsing, mode assertion) is outside
the embedding. -/
def gridAnnualMetricsStream (g : GridContext) (rows : List (List ℚ))
    (fileHoys : List Nat) (thr : Option ℚ) (udi : Option (ℚ × ℚ))
    (sched : Option (List Nat)) :
    Except PointError (List ℚ × List ℚ × List ℚ × List ℚ × List ℚ) :=
  let t := orDefaultQ thr 300
  let mm := udi.getD (100, 3000)
  let sc := schedOrDefault sched g.workday
  (mapExcept (fun row =>
      calculate_annual_metrics g.workday row fileHoys (some t) (some mm)
        (some sc)) rows).bind (fun rs => .ok (transpose5 rs))

/-- The tail shared by both branches of `spatial_daylight_autonomy`
(analysisresult.py:418-428): problematic points are those whose DA is
below the target; sDA is `(1 − problematic/total) × 100`, with the
`ZeroDivisionError` on an empty grid caught as 0. -/
def sdaTail (points : List AnalysisPoint) (das : List ℚ) (target : ℚ) :
    ℚ × List ℚ × List AnalysisPoint :=
  let prob := ((points.zip das).filter (fun pd => pd.2 < target)).map (·.1)
  let sda := if points.length = 0 then 0
    else (1 - (prob.length : ℚ) / (points.length : ℚ)) * 100
  (sda, das, prob)

/-- Python `AnalysisResult.spatial_daylight_autonomy`, memory-resident branch
(analysisresult.py:368-376 plus the shared tail): per-sensor DA through
`daylight_autonomy`, then the sDA tail. -/
def gridSpatialDALoaded (g : GridContext) (thr : Option ℚ)
    (target : Option ℚ) (ids : Option (List (List Int)))
    (sched : Option (List Nat)) :
    Except PointError (ℚ × List ℚ × List AnalysisPoint) :=
  let t := orDefaultQ thr 300
  let tda := orDefaultQ target 50
  let sc := schedOrDefault sched g.workday
  let ids' := match ids with
    | none => defaultStateIds g
    | some l => if l.isEmpty then defaultStateIds g else l
  (mapExcept (fun ap =>
      ap.daylight_autonomy (some t) (some ids') (some sc))
    g.analysis_points).bind
    (fun rs => .ok (sdaTail g.analysis_points (rs.map (·.1)) tda))

/-- Python `AnalysisResult.spatial_daylight_autonomy`, streaming branch
(analysisresult.py:377-416 plus the shared tail): one parsed row per
sensor reduced through `_calculate_daylight_autonomy`, then the sDA
tail. -/
def gridSpatialDAStream (g : GridContext) (rows : List (List ℚ))
    (fileHoys : List Nat) (thr : Option ℚ) (target : Option ℚ)
    (sched : Option (List Nat)) :
    Except PointError (ℚ × List ℚ × List AnalysisPoint) :=
  let t := orDefaultQ thr 300
  let tda := orDefaultQ target 50
  let sc := schedOrDefault sched g.workday
  (mapExcept (fun row =>
      calculate_daylight_autonomy row fileHoys (some t) (some sc)) rows).bind
    (fun rs => .ok (sdaTail g.analysis_points (rs.map (·.1)) tda))

/-- Number of (hour, value) pairs whose hour is in the schedule. -/
def schedCount (sched : List Nat) : List (Nat × ℚ) → Nat
  | [] => 0
  | (h, _) :: rest => (if h ∈ sched then 1 else 0) + schedCount sched rest

/-- Number of scheduled pairs whose value satisfies a predicate. -/
def bandCount (sched : List Nat) (pred : ℚ → Bool) : List (Nat × ℚ) → Nat
  | [] => 0
  | (h, v) :: rest =>
    (if h ∈ sched ∧ pred v then 1 else 0) + bandCount sched pred rest

/-- Sum over scheduled pairs of `min 1 (value / threshold)`. -/
def cdaMinSum (t : ℚ) (sched : List Nat) : List (Nat × ℚ) → ℚ
  | [] => 0
  | (h, v) :: rest =>
    (if h ∈ sched then min 1 (v / t) else 0) + cdaMinSum t sched rest

theorem bandCount_congr (sched : List Nat) (p q : ℚ → Bool)
    (hpq : ∀ v, p v = q v) :
    ∀ pairs, bandCount sched p pairs = bandCount sched q pairs := by
  intro pairs
  induction pairs with
  | nil => rfl
  | cons a rest ih => simp [bandCount, hpq, ih]

theorem schedCount_le_length (sched : List Nat) :
    ∀ pairs : List (Nat × ℚ), schedCount sched pairs ≤ pairs.length := by
  intro pairs
  induction pairs with
  | nil => exact le_refl 0
  | cons a rest ih =>
    rw [schedCount, List.length_cons]
    split <;> omega

theorem daLoop_eq (t : ℚ) (ht : 0 < t) (sched : List Nat) :
    ∀ (pairs : List (Nat × ℚ)) (da cda : ℚ) (thc : Int),
      daLoop t sched pairs (da, cda, thc) =
        (da + (bandCount sched (fun v => decide (t ≤ v)) pairs : ℚ),
          cda + cdaMinSum t sched pairs,
          thc - ((pairs.length : Int) - (schedCount sched pairs : Int))) := by
  intro pairs
  induction pairs with
  | nil => intro da cda thc; simp [daLoop, bandCount, cdaMinSum, schedCount]
  | cons p rest ih =>
    intro da cda thc
    obtain ⟨h, v⟩ := p
    show daLoop t sched _ _ = _
    rw [daLoop]
    rw [bandCount, cdaMinSum, schedCount, List.length_cons]
    by_cases hmem : h ∈ sched
    · rw [if_pos hmem]
      by_cases hge : t ≤ v
      · have hmin : min 1 (v / t) = 1 :=
          min_eq_left ((one_le_div ht).mpr hge)
        rw [if_pos hge, ih]
        simp only [hmem, hge, decide_True, and_self, if_true, if_pos hmem,
          hmin, Prod.mk.injEq]
        refine ⟨?_, ?_, ?_⟩ <;> push_cast <;> ring
      · have hmin : min 1 (v / t) = v / t :=
          min_eq_right (le_of_lt ((div_lt_one ht).mpr (lt_of_not_le hge)))
        rw [if_neg hge, ih]
        have hcond : ¬ (h ∈ sched ∧ decide (t ≤ v) = true) := by
          simp [hge]
        rw [if_neg hcond]
        simp only [if_pos hmem, hmin, Prod.mk.injEq]
        refine ⟨?_, ?_, ?_⟩ <;> push_cast <;> ring
    · rw [if_neg hmem, ih]
      have hcond : ¬ (h ∈ sched ∧ decide (t ≤ v) = true) := by
        simp [hmem]
      rw [if_neg hcond, if_neg hmem, if_neg hmem]
      simp only [Prod.mk.injEq]
      refine ⟨?_, ?_, ?_⟩ <;> push_cast <;> ring

theorem udiLoop_eq (mn mx : ℚ) (sched : List Nat) :
    ∀ (pairs : List (Nat × ℚ)) (u l m : ℚ) (thc : Int),
      udiLoop mn mx sched pairs (u, l, m, thc) =
        (u + (bandCount sched (fun v => decide (¬ v < mn ∧ ¬ mx < v)) pairs : ℚ),
          l + (bandCount sched (fun v => decide (v < mn)) pairs : ℚ),
          m + (bandCount sched (fun v => decide (¬ v < mn ∧ mx < v)) pairs : ℚ),
          thc - ((pairs.length : Int) - (schedCount sched pairs : Int))) := by
  intro pairs
  induction pairs with
  | nil => intro u l m thc; simp [udiLoop, bandCount, schedCount]
  | cons p rest ih =>
    intro u l m thc
    obtain ⟨h, v⟩ := p
    show udiLoop mn mx sched _ _ = _
    rw [udiLoop]
    rw [bandCount, bandCount, bandCount, schedCount, List.length_cons]
    by_cases hmem : h ∈ sched
    · rw [if_pos hmem, if_pos hmem]
      by_cases hlo : v < mn
      · rw [if_pos hlo, ih]
        have c1 : ¬ (h ∈ sched ∧ decide (¬ v < mn ∧ ¬ mx < v) = true) := by
          simp [hlo]
        have c2 : (h ∈ sched ∧ decide (v < mn) = true) := by simp [hmem, hlo]
        have c3 : ¬ (h ∈ sched ∧ decide (¬ v < mn ∧ mx < v) = true) := by
          simp [hlo]
        rw [if_neg c1, if_pos c2, if_neg c3]
        simp only [Prod.mk.injEq]
        refine ⟨?_, ?_, ?_, ?_⟩ <;> push_cast <;> ring
      · rw [if_neg hlo]
        by_cases hhi : mx < v
        · rw [if_pos hhi, ih]
          have c1 : ¬ (h ∈ sched ∧ decide (¬ v < mn ∧ ¬ mx < v) = true) := by
            simp [hlo, hhi]
          have c2 : ¬ (h ∈ sched ∧ decide (v < mn) = true) := by simp [hlo]
          have c3 : (h ∈ sched ∧ decide (¬ v < mn ∧ mx < v) = true) := by
            simp [hmem, hlo, hhi]
          rw [if_neg c1, if_neg c2, if_pos c3]
          simp only [Prod.mk.injEq]
          refine ⟨?_, ?_, ?_, ?_⟩ <;> push_cast <;> ring
        · rw [if_neg hhi, ih]
          have c1 : (h ∈ sched ∧ decide (¬ v < mn ∧ ¬ mx < v) = true) := by
            simp [hmem, hlo, hhi]
          have c2 : ¬ (h ∈ sched ∧ decide (v < mn) = true) := by simp [hlo]
          have c3 : ¬ (h ∈ sched ∧ decide (¬ v < mn ∧ mx < v) = true) := by
            simp [hhi]
          rw [if_pos c1, if_neg c2, if_neg c3]
          simp only [Prod.mk.injEq]
          refine ⟨?_, ?_, ?_, ?_⟩ <;> push_cast <;> ring
    · rw [if_neg hmem, ih]
      have c1 : ¬ (h ∈ sched ∧ decide (¬ v < mn ∧ ¬ mx < v) = true) := by
        simp [hmem]
      have c2 : ¬ (h ∈ sched ∧ decide (v < mn) = true) := by simp [hmem]
      have c3 : ¬ (h ∈ sched ∧ decide (¬ v < mn ∧ mx < v) = true) := by
        simp [hmem]
      rw [if_neg c1, if_neg c2, if_neg c3, if_neg hmem]
      simp only [Prod.mk.injEq]
      refine ⟨?_, ?_, ?_, ?_⟩ <;> push_cast <;> ring

theorem udi_partition (mn mx : ℚ) (sched : List Nat) :
    ∀ pairs : List (Nat × ℚ),
      bandCount sched (fun v => decide (¬ v < mn ∧ ¬ mx < v)) pairs +
        bandCount sched (fun v => decide (v < mn)) pairs +
        bandCount sched (fun v => decide (¬ v < mn ∧ mx < v)) pairs =
        schedCount sched pairs := by
  intro pairs
  induction pairs with
  | nil => rfl
  | cons p rest ih =>
    obtain ⟨h, v⟩ := p
    rw [bandCount, bandCount, bandCount, schedCount]
    by_cases hmem : h ∈ sched
    · by_cases hlo : v < mn
      · simp only [decide_eq_true_eq]
        rw [if_neg (by simp [hlo]), if_pos ⟨hmem, hlo⟩,
          if_neg (by simp [hlo]), if_pos hmem]
        omega
      · by_cases hhi : mx < v
        · simp only [decide_eq_true_eq]
          rw [if_neg (by simp [hlo, hhi]), if_neg (by simp [hlo]),
            if_pos ⟨hmem, by simp [hlo, hhi]⟩, if_pos hmem]
          omega
        · simp only [decide_eq_true_eq]
          rw [if_pos ⟨hmem, by simp [hlo, hhi]⟩, if_neg (by simp [hlo]),
            if_neg (by simp [hhi]), if_pos hmem]
          omega
    · simp only [decide_eq_true_eq]
      rw [if_neg (by simp [hmem]), if_neg (by simp [hmem]),
        if_neg (by simp [hmem]), if_neg hmem]
      omega

theorem findState_found (logic : ℚ → Option ℚ → Nat → Bool) (h : Nat) :
    ∀ (col : List (ℚ × Option ℚ)) (i : Nat), i < col.length →
      (∀ j, j < i →
        logic (col.getD j (0, none)).1 (col.getD j (0, none)).2 h = true) →
      logic (col.getD i (0, none)).1 (col.getD i (0, none)).2 h = false →
      ∀ i0, findState logic h col i0 =
        some (i0 + i, (col.getD i (0, none)).1, (col.getD i (0, none)).2) := by
  intro col
  induction col with
  | nil => intro i hi; simp at hi
  | cons c rest ih =>
    intro i hi hprev hcur i0
    cases i with
    | zero =>
      rw [List.getD_cons_zero] at hcur ⊢
      rw [findState, if_neg (by simp [hcur])]
      simp
    | succ i' =>
      have h0 : logic c.1 c.2 h = true := by
        have := hprev 0 (Nat.succ_pos _)
        rwa [List.getD_cons_zero] at this
      rw [List.getD_cons_succ] at hcur ⊢
      rw [findState, if_pos h0]
      rw [ih i' (by simpa using hi)
        (fun j hj => by
          have := hprev (j + 1) (by omega)
          rwa [List.getD_cons_succ] at this) hcur (i0 + 1)]
      have : i0 + 1 + i' = i0 + (i' + 1) := by omega
      rw [this]

theorem findState_none (logic : ℚ → Option ℚ → Nat → Bool) (h : Nat) :
    ∀ col : List (ℚ × Option ℚ),
      (∀ j, j < col.length →
        logic (col.getD j (0, none)).1 (col.getD j (0, none)).2 h = true) →
      ∀ i0, findState logic h col i0 = none := by
  intro col
  induction col with
  | nil => intro _ i0; rfl
  | cons c rest ih =>
    intro hall i0
    have h0 : logic c.1 c.2 h = true := by
      have := hall 0 (Nat.succ_pos _)
      rwa [List.getD_cons_zero] at this
    rw [findState, if_pos h0]
    exact ih (fun j hj => by
      have := hall (j + 1) (by simpa using Nat.succ_lt_succ hj)
      rwa [List.getD_cons_succ] at this) (i0 + 1)

theorem bandCount_le_cdaMinSum (t : ℚ) (ht : 0 < t) (sched : List Nat) :
    ∀ pairs : List (Nat × ℚ), (∀ p ∈ pairs, 0 ≤ p.2) →
      ((bandCount sched (fun v => decide (t ≤ v)) pairs : ℚ)) ≤
        cdaMinSum t sched pairs := by
  intro pairs
  induction pairs with
  | nil => intro _; simp [bandCount, cdaMinSum]
  | cons p rest ih =>
    intro hnn
    obtain ⟨h, v⟩ := p
    have hv : (0 : ℚ) ≤ v := hnn (h, v) (List.mem_cons_self _ _)
    have ih' := ih (fun q hq => hnn q (List.mem_cons_of_mem _ hq))
    rw [bandCount, cdaMinSum]
    push_cast
    by_cases hmem : h ∈ sched
    · by_cases hge : t ≤ v
      · rw [if_pos (by simp [hmem, hge]), if_pos hmem,
          min_eq_left ((one_le_div ht).mpr hge)]
        linarith
      · rw [if_neg (by simp [hge]), if_pos hmem]
        have hmin : (0 : ℚ) ≤ min 1 (v / t) :=
          le_min (by norm_num) (div_nonneg hv (le_of_lt ht))
        linarith
    · rw [if_neg (by simp [hmem]), if_neg hmem]
      linarith

theorem cdaMinSum_le_schedCount (t : ℚ) (sched : List Nat) :
    ∀ pairs : List (Nat × ℚ),
      cdaMinSum t sched pairs ≤ (schedCount sched pairs : ℚ) := by
  intro pairs
  induction pairs with
  | nil => simp [cdaMinSum, schedCount]
  | cons p rest ih =>
    obtain ⟨h, v⟩ := p
    rw [cdaMinSum, schedCount]
    push_cast
    by_cases hmem : h ∈ sched
    · rw [if_pos hmem, if_pos hmem]
      have := min_le_left (1 : ℚ) (v / t)
      linarith
    · rw [if_neg hmem, if_neg hmem]
      linarith

theorem mapExcept_congr {α β γ : Type} (F : α → Except PointError γ)
    (G : β → Except PointError γ) :
    ∀ (ps : List α) (rows : List β), ps.length = rows.length →
      (∀ pr ∈ ps.zip rows, F pr.1 = G pr.2) →
      mapExcept F ps = mapExcept G rows := by
  intro ps
  induction ps with
  | nil =>
    intro rows hlen _
    cases rows with
    | nil => rfl
    | cons r rows => simp at hlen
  | cons p ps ih =>
    intro rows hlen hpt
    cases rows with
    | nil => simp at hlen
    | cons r rows =>
      rw [mapExcept, mapExcept]
      rw [hpt (p, r) (by simp [List.zip_cons_cons])]
      rw [ih rows (by simpa using hlen)
        (fun pr hpr => hpt pr (by simp [List.zip_cons_cons, hpr]))]

/-- The method body of `daylight_autonomy` and the static
`_calculate_daylight_autonomy` repeat the same code, so the two
definitions coincide. -/
theorem daylight_core_eq_calculate :
    daylight_autonomy_core = calculate_daylight_autonomy := rfl

/-- A minimal sensor shared by the concrete examples: one light source
with three states, no values yet. -/
def apBase : AnalysisPoint :=
  { sources := [⟨"w", ["clear", "mid", "dark"]⟩], values := [],
    isDirectLoaded := false, hoys := [0], id := 0 }

/-- C3: `longest_state_ids`, for a sensor whose N light sources have state
counts c₀…c_{N−1} (each ≥ 1 counting the reference state), returns exactly
max(c_i) combinations indexed i = 0…max(c_i)−1, where combination i
assigns source j the state index min(c_j − 1, i); for state counts [2, 4]
this yields exactly (0,0),(1,1),(1,2),(1,3); and it fails when N = 0. -/
theorem claim_C3 :
    (∀ sources : List LightSource, sources ≠ [] →
      (∀ s ∈ sources, s.states ≠ []) →
      longest_state_ids sources =
        .ok ((List.range (maxStateCount sources)).map
          (fun (i : Nat) => sources.map
            (fun s => min ((s.states.length : Int) - 1) (i : Int)))))
    ∧ longest_state_ids
        [⟨"a", ["0", "1"]⟩, ⟨"b", ["0", "1", "2", "3"]⟩] =
        .ok [[0, 0], [1, 1], [1, 2], [1, 3]]
    ∧ longest_state_ids [] =
        .error (.valueError
          "This sensor is associated with no dynamic blinds.") := by
  refine ⟨?_, by decide, by decide⟩
  intro sources hne hst
  have hE : (sources.map
      (fun s => (s.states.length : Int) - 1)).isEmpty = false := by
    cases sources with
    | nil => exact absurd rfl hne
    | cons a l => rfl
  simp only [longest_state_ids, hE, Bool.false_eq_true, if_false,
    List.map_map]
  rw [longest_state_ids_length sources hne hst]
  rfl

/-- Witness for C3 at one source with three states. -/
theorem claim_C3_witness :
    longest_state_ids [⟨"w", ["clear", "mid", "dark"]⟩] =
      .ok ((List.range
          (maxStateCount [⟨"w", ["clear", "mid", "dark"]⟩])).map
        (fun (i : Nat) => [(⟨"w", ["clear", "mid", "dark"]⟩ : LightSource)].map
          (fun s => min ((s.states.length : Int) - 1) (i : Int)))) :=
  claim_C3.1 _ (by decide) (by decide)

/-- A concrete pending result-file descriptor. -/
def fdExample : ResultFileDescriptor :=
  { file_path := "total..sky..default.ill", hoys := [0, 1], start_line := 0,
    header := true, mode := 0 }

/-- A grid with one pending total-channel descriptor. -/
def gridC8 : AnalysisGrid :=
  { analysis_points := [apBase], totalFiles := [fdExample],
    directFiles := [] }

/-- C8 counterexample: `unload` does NOT leave the result-file descriptor
sequences unchanged — it resets them to empty, so a grid with a pending
total-file descriptor loses it. -/
theorem claim_C8_counterexample :
    gridC8.unload.totalFiles = [] ∧ gridC8.totalFiles ≠ [] :=
  ⟨rfl, by decide⟩

/-- C8 amended: `unload()` discards all resident values (and per-point
source tables) from every analysis point of the grid AND resets both the
total and direct result-file descriptor sequences to empty lists, so
pending result files are forgotten rather than preserved; the point count
and the remaining per-point fields are unchanged. -/
theorem claim_C8_amended (g : AnalysisGrid) :
    g.unload.totalFiles = [] ∧ g.unload.directFiles = [] ∧
    g.unload.analysis_points.map (fun p => (p.values, p.sources)) =
      List.replicate g.analysis_points.length ([], []) ∧
    g.unload.analysis_points.map (fun p => (p.isDirectLoaded, p.hoys, p.id)) =
      g.analysis_points.map (fun p => (p.isDirectLoaded, p.hoys, p.id)) := by
  refine ⟨rfl, rfl, ?_, ?_⟩
  · rw [AnalysisGrid.unload]
    simp only [List.map_map]
    refine List.eq_replicate_iff.mpr ⟨by simp, ?_⟩
    intro b hb
    simp only [List.mem_map] at hb
    obtain ⟨p, _, hp⟩ := hb
    exact hp.symm
  · rw [AnalysisGrid.unload]
    simp only [List.map_map]
    rfl

/-- A two-point grid for the renumbering counterexample. -/
def gridC9 : AnalysisGrid :=
  { analysis_points := [apBase, apBase], totalFiles := [], directFiles := [] }

/-- C9 counterexample: on a 2-point grid, `renumber(5)` returns 6 — the
id assigned to the last point — not the next free index 7 that the claim
predicts. -/
theorem claim_C9_counterexample :
    (gridC9.renumber 5).map (·.2) = some 6 ∧ ((6 : Int) ≠ 7) :=
  ⟨rfl, by decide⟩

/-- C9 amended: for every grid with n ≥ 1 points and every integer start,
`renumber(start)` assigns the global indices start, …, start+n−1 to the
points sequentially in grid order and returns start + n − 1, the global
index of the LAST point (its own docstring: "the id for the last point"),
not the next free index. -/
theorem claim_C9_amended (g : AnalysisGrid) (start : Int)
    (h : g.analysis_points ≠ []) :
    (g.renumber start).map (fun pr => pr.1.analysis_points.map (·.id)) =
      some ((List.range g.analysis_points.length).map
        (fun (k : Nat) => start + (k : Int))) ∧
    (g.renumber start).map (·.2) =
      some (start + ((g.analysis_points.length : Int) - 1)) := by
  have hE : g.analysis_points.isEmpty = false := by
    cases hl : g.analysis_points with
    | nil => exact absurd hl h
    | cons a l => rfl
  constructor
  · rw [AnalysisGrid.renumber, hE]
    simp only [Bool.false_eq_true, if_false, Option.map_some']
    congr 1
    rw [List.map_map, ← List.enum_map_fst g.analysis_points, List.map_map]
    rfl
  · rw [AnalysisGrid.renumber, hE]
    rfl

/-- Witness for C9 at the 2-point grid with start 5. -/
theorem claim_C9_amended_witness :
    (gridC9.renumber 5).map (fun pr => pr.1.analysis_points.map (·.id)) =
      some ((List.range gridC9.analysis_points.length).map
        (fun (k : Nat) => 5 + (k : Int))) ∧
    (gridC9.renumber 5).map (·.2) =
      some (5 + ((gridC9.analysis_points.length : Int) - 1)) :=
  claim_C9_amended gridC9 5 (by decide)

theorem sum_three_div (A B C N : Nat) (h : A + B + C = N) (hN : N ≠ 0) :
    100 * (A : ℚ) / (N : ℚ) + 100 * (B : ℚ) / (N : ℚ) +
      100 * (C : ℚ) / (N : ℚ) = 100 := by
  have hNQ : (N : ℚ) ≠ 0 := by exact_mod_cast hN
  have hc : (A : ℚ) + (B : ℚ) + (C : ℚ) = (N : ℚ) := by exact_mod_cast h
  field_simp
  linarith

/-- C1: for every per-sensor value row and every non-empty occupancy
schedule, `daylight_autonomy(threshold=300)` returns
DA% = 100 × (scheduled hours with total ≥ 300) / (scheduled hour count)
and cDA% = 100 × Σ min(1, total/300) over scheduled hours / (scheduled
hour count), hours outside the schedule being excluded from the
denominator; it fails with the empty-schedule error when the scheduled
hour count is 0.  Over 4 scheduled hours with totals [100, 300, 600, 150]
it returns DA = 50% and cDA = 425/6 % = 70.83̄%, i.e. 70.83% at two
decimals. -/
theorem claim_C1 :
    (∀ (values : List ℚ) (hoys sched : List Nat),
      values.length = hoys.length → sched ≠ [] →
      ((schedCount sched (hoys.zip values) ≠ 0 →
        daylight_autonomy_core values hoys (some 300) (some sched) =
          .ok (100 * (bandCount sched (fun v => decide ((300 : ℚ) ≤ v))
                (hoys.zip values) : ℚ) /
              (schedCount sched (hoys.zip values) : ℚ),
            100 * cdaMinSum 300 sched (hoys.zip values) /
              (schedCount sched (hoys.zip values) : ℚ))) ∧
      (schedCount sched (hoys.zip values) = 0 →
        daylight_autonomy_core values hoys (some 300) (some sched) =
          .error .emptySchedule)))
    ∧ daylight_autonomy_core [100, 300, 600, 150] [0, 1, 2, 3] (some 300)
        (some [0, 1, 2, 3]) = .ok (50, 425 / 6)
    ∧ round ((425 / 6 : ℚ) * 100) = 7083 := by
  refine ⟨?_,
    by norm_num [daylight_autonomy_core, daLoop, orDefaultQ, schedOrDefault,
      List.zip_cons_cons],
    by norm_num [round_eq]⟩
  intro values hoys sched hlen hsne
  have hOr : orDefaultQ (some 300) 300 = (300 : ℚ) := by
    norm_num [orDefaultQ]
  have hSch : schedOrDefault (some sched) hoys = sched := by
    cases sched with
    | nil => exact absurd rfl hsne
    | cons a l => rfl
  have hplen : (hoys.zip values).length = hoys.length := by
    rw [List.length_zip, hlen, min_self]
  have hthc : (hoys.length : Int) -
      (((hoys.zip values).length : Int) -
        (schedCount sched (hoys.zip values) : Int)) =
      (schedCount sched (hoys.zip values) : Int) := by
    rw [hplen]; ring
  simp only [daylight_autonomy_core, hOr, hSch,
    daLoop_eq 300 (by norm_num) sched, hthc, zero_add]
  constructor
  · intro hn
    rw [if_neg (by exact_mod_cast hn)]
    simp only [Int.cast_natCast]
  · intro hn
    rw [if_pos (by exact_mod_cast hn)]

/-- Witness for C1 on a 2-hour row with a 1-hour schedule. -/
theorem claim_C1_witness :
    (([400, 100] : List ℚ).length = ([5, 6] : List Nat).length ∧
      ([5] : List Nat) ≠ [] ∧
      schedCount [5] (([5, 6] : List Nat).zip [400, 100]) ≠ 0) ∧
    daylight_autonomy_core [400, 100] [5, 6] (some 300) (some [5]) =
      .ok (100 * (bandCount [5] (fun v => decide ((300 : ℚ) ≤ v))
            (([5, 6] : List Nat).zip [400, 100]) : ℚ) /
          (schedCount [5] (([5, 6] : List Nat).zip [400, 100]) : ℚ),
        100 * cdaMinSum 300 [5] (([5, 6] : List Nat).zip [400, 100]) /
          (schedCount [5] (([5, 6] : List Nat).zip [400, 100]) : ℚ)) := by
  refine ⟨⟨rfl, by decide, by decide⟩, ?_⟩
  exact (claim_C1.1 [400, 100] [5, 6] [5] rfl (by decide)).1 (by decide)

/-- C10 (implicit): whenever `daylight_autonomy` succeeds on non-negative
totals with a positive effective threshold, the returned pair satisfies
0 ≤ DA ≤ cDA ≤ 100. -/
theorem claim_C10 (values : List ℚ) (hoys : List Nat) (thrOpt : Option ℚ)
    (schedOpt : Option (List Nat)) (da cda : ℚ)
    (hpos : 0 < orDefaultQ thrOpt 300)
    (hnn : ∀ v ∈ values, 0 ≤ v)
    (hok : daylight_autonomy_core values hoys thrOpt schedOpt =
      .ok (da, cda)) :
    0 ≤ da ∧ da ≤ cda ∧ cda ≤ 100 := by
  simp only [daylight_autonomy_core,
    daLoop_eq (orDefaultQ thrOpt 300) hpos
      (schedOrDefault schedOpt hoys), zero_add] at hok
  set t := orDefaultQ thrOpt 300 with hts
  set sch := schedOrDefault schedOpt hoys with hschs
  set pairs := hoys.zip values with hpairs
  set T : Int := (hoys.length : Int) -
    ((pairs.length : Int) - (schedCount sch pairs : Int)) with hT
  by_cases hT0 : T = 0
  · rw [if_pos hT0] at hok
    exact absurd hok (by simp)
  · rw [if_neg hT0] at hok
    have hpairnn : ∀ p ∈ pairs, (0 : ℚ) ≤ p.2 := by
      intro p hp
      exact hnn p.2 (List.of_mem_zip hp).2
    have hTpos : 0 < T := by
      have h1 : schedCount sch pairs ≤ pairs.length :=
        schedCount_le_length sch pairs
      have h2 : pairs.length ≤ hoys.length := by
        rw [hpairs, List.length_zip]
        exact min_le_left _ _
      omega
    have hTQ : (0 : ℚ) < ((T : Int) : ℚ) := by exact_mod_cast hTpos
    have hbc : ((bandCount sch (fun v => decide (t ≤ v)) pairs : ℚ)) ≤
        cdaMinSum t sch pairs :=
      bandCount_le_cdaMinSum t hpos sch pairs hpairnn
    have hcs : cdaMinSum t sch pairs ≤ (schedCount sch pairs : ℚ) :=
      cdaMinSum_le_schedCount t sch pairs
    have hscT : ((schedCount sch pairs : ℚ)) ≤ ((T : Int) : ℚ) := by
      have h1 : (schedCount sch pairs : Int) ≤ T := by
        have h2 : pairs.length ≤ hoys.length := by
          rw [hpairs, List.length_zip]
          exact min_le_left _ _
        omega
      exact_mod_cast h1
    have hda : da = 100 * (bandCount sch (fun v => decide (t ≤ v)) pairs : ℚ) /
        ((T : Int) : ℚ) := by
      have := hok
      simp only [Except.ok.injEq, Prod.mk.injEq] at this
      exact this.1.symm
    have hcda : cda = 100 * cdaMinSum t sch pairs / ((T : Int) : ℚ) := by
      have := hok
      simp only [Except.ok.injEq, Prod.mk.injEq] at this
      exact this.2.symm
    refine ⟨?_, ?_, ?_⟩
    · rw [hda]
      positivity
    · rw [hda, hcda]
      exact (div_le_div_iff_of_pos_right hTQ).mpr (by linarith)
    · rw [hcda, div_le_iff₀ hTQ]
      nlinarith [le_trans hcs hscT]

/-- Witness for C10 on a concrete successful evaluation. -/
theorem claim_C10_witness :
    (0 < orDefaultQ (some 300) 300 ∧
      (∀ v ∈ ([400, 100] : List ℚ), 0 ≤ v) ∧
      daylight_autonomy_core [400, 100] [5, 6] (some 300) (some [5]) =
        .ok (100, 100)) ∧
    (0 ≤ (100 : ℚ) ∧ (100 : ℚ) ≤ 100 ∧ (100 : ℚ) ≤ 100) :=
  ⟨⟨by norm_num [orDefaultQ], by decide,
      by norm_num [daylight_autonomy_core, daLoop, orDefaultQ,
        schedOrDefault, List.zip_cons_cons]⟩,
    claim_C10 [400, 100] [5, 6] (some 300) (some [5]) 100 100
      (by norm_num [orDefaultQ]) (by decide)
      (by norm_num [daylight_autonomy_core, daLoop, orDefaultQ,
        schedOrDefault, List.zip_cons_cons])⟩

/-- C7: `useful_daylight_illuminance(min=100, max=2000)`, for every
schedule with at least one scheduled hour, returns the three percentages
over scheduled hours — low (total < 100), useful (100 ≤ total ≤ 2000) and
high (total > 2000), in the source's return order (useful, low, high) —
and they sum exactly to 100; over totals [50, 150, 2500, 900] they are
low = 25%, useful = 50%, high = 25%. -/
theorem claim_C7 :
    (∀ (values : List ℚ) (hoys sched : List Nat),
      values.length = hoys.length → sched ≠ [] →
      schedCount sched (hoys.zip values) ≠ 0 →
      useful_daylight_illuminance_core values hoys (some (100, 2000))
          (some sched) =
        .ok (100 * (bandCount sched
              (fun v => decide ((100 : ℚ) ≤ v ∧ v ≤ 2000))
              (hoys.zip values) : ℚ) /
            (schedCount sched (hoys.zip values) : ℚ),
          100 * (bandCount sched (fun v => decide (v < (100 : ℚ)))
              (hoys.zip values) : ℚ) /
            (schedCount sched (hoys.zip values) : ℚ),
          100 * (bandCount sched (fun v => decide ((2000 : ℚ) < v))
              (hoys.zip values) : ℚ) /
            (schedCount sched (hoys.zip values) : ℚ)) ∧
      100 * (bandCount sched (fun v => decide ((100 : ℚ) ≤ v ∧ v ≤ 2000))
          (hoys.zip values) : ℚ) /
        (schedCount sched (hoys.zip values) : ℚ) +
      100 * (bandCount sched (fun v => decide (v < (100 : ℚ)))
          (hoys.zip values) : ℚ) /
        (schedCount sched (hoys.zip values) : ℚ) +
      100 * (bandCount sched (fun v => decide ((2000 : ℚ) < v))
          (hoys.zip values) : ℚ) /
        (schedCount sched (hoys.zip values) : ℚ) = 100)
    ∧ useful_daylight_illuminance_core [50, 150, 2500, 900] [0, 1, 2, 3]
        (some (100, 2000)) (some [0, 1, 2, 3]) = .ok (50, 25, 25) := by
  refine ⟨?_,
    by norm_num [useful_daylight_illuminance_core, udiLoop, schedOrDefault,
      List.zip_cons_cons]⟩
  intro values hoys sched hlen hsne hn
  have hSch : schedOrDefault (some sched) hoys = sched := by
    cases sched with
    | nil => exact absurd rfl hsne
    | cons a l => rfl
  have hplen : (hoys.zip values).length = hoys.length := by
    rw [List.length_zip, hlen, min_self]
  have hthc : (hoys.length : Int) -
      (((hoys.zip values).length : Int) -
        (schedCount sched (hoys.zip values) : Int)) =
      (schedCount sched (hoys.zip values) : Int) := by
    rw [hplen]; ring
  have hcu : bandCount sched
      (fun v => decide (¬ v < (100 : ℚ) ∧ ¬ (2000 : ℚ) < v))
      (hoys.zip values) =
      bandCount sched (fun v => decide ((100 : ℚ) ≤ v ∧ v ≤ 2000))
        (hoys.zip values) := by
    refine bandCount_congr sched _ _ (fun v => ?_) _
    apply decide_eq_decide.mpr
    constructor
    · intro hv; exact ⟨not_lt.mp hv.1, not_lt.mp hv.2⟩
    · intro hv; exact ⟨not_lt.mpr hv.1, not_lt.mpr hv.2⟩
  have hcm : bandCount sched
      (fun v => decide (¬ v < (100 : ℚ) ∧ (2000 : ℚ) < v))
      (hoys.zip values) =
      bandCount sched (fun v => decide ((2000 : ℚ) < v))
        (hoys.zip values) := by
    refine bandCount_congr sched _ _ (fun v => ?_) _
    apply decide_eq_decide.mpr
    constructor
    · intro hv; exact hv.2
    · intro hv; exact ⟨not_lt.mpr (by linarith), hv⟩
  have hpart := udi_partition (100 : ℚ) 2000 sched (hoys.zip values)
  rw [hcu, hcm] at hpart
  constructor
  · simp only [useful_daylight_illuminance_core, Option.getD_some, hSch,
      udiLoop_eq (100 : ℚ) 2000 sched, hthc, zero_add, hcu, hcm]
    rw [if_neg (by exact_mod_cast hn)]
    norm_num
  · exact sum_three_div _ _ _ _ hpart hn

/-- Witness for C7 on a 2-hour row with a 1-hour schedule. -/
theorem claim_C7_witness :
    (([400, 100] : List ℚ).length = ([5, 6] : List Nat).length ∧
      ([5] : List Nat) ≠ [] ∧
      schedCount [5] (([5, 6] : List Nat).zip [400, 100]) ≠ 0) ∧
    useful_daylight_illuminance_core [400, 100] [5, 6] (some (100, 2000))
        (some [5]) =
      .ok (100 * (bandCount [5]
            (fun v => decide ((100 : ℚ) ≤ v ∧ v ≤ 2000))
            (([5, 6] : List Nat).zip [400, 100]) : ℚ) /
          (schedCount [5] (([5, 6] : List Nat).zip [400, 100]) : ℚ),
        100 * (bandCount [5] (fun v => decide (v < (100 : ℚ)))
            (([5, 6] : List Nat).zip [400, 100]) : ℚ) /
          (schedCount [5] (([5, 6] : List Nat).zip [400, 100]) : ℚ),
        100 * (bandCount [5] (fun v => decide ((2000 : ℚ) < v))
            (([5, 6] : List Nat).zip [400, 100]) : ℚ) /
          (schedCount [5] (([5, 6] : List Nat).zip [400, 100]) : ℚ)) := by
  refine ⟨⟨rfl, by decide, by decide⟩, ?_⟩
  exact ((claim_C7.1 [400, 100] [5, 6] [5] rfl (by decide) (by decide))).1

/-- C4: for every sensor, hour and blind combination of length equal to
the light-source count, `combined_value_by_id` returns the pair of sums of
the stored per-source totals and directs at the states the combination
selects (a source with state −1 contributing 0 to both); the direct sum is
produced only when the `_is_directLoaded` flag is set and is absent
otherwise; and it fails with `ValueNotAvailable` carrying the hour
whenever a required (source, state, hour) entry is missing for a
non-excluded source. -/
theorem claim_C4 (ap : AnalysisPoint) (hoy : Nat) (ids : List Int)
    (hlen : ids.length = ap.sources.length) :
    ((∀ p ∈ ids.enum, p.2 ≠ -1 →
        ∃ t d, lookupVal ap.values (p.1, p.2, hoy) = some (t, some d)) →
      ap.combined_value_by_id hoy (some ids) =
        .ok ((ids.enum.map (entryTotal ap.values hoy)).sum,
          if ap.isDirectLoaded then
            some ((ids.enum.map (entryDirect ap.values hoy)).sum)
          else none))
    ∧ ((∃ p ∈ ids.enum,
          p.2 ≠ -1 ∧ lookupVal ap.values (p.1, p.2, hoy) = none) →
      ap.combined_value_by_id hoy (some ids) =
        .error (.valueNotAvailable hoy)) := by
  have hunf : ap.combined_value_by_id hoy (some ids) =
      combineLoop ap.values hoy ids.enum
        (0, if ap.isDirectLoaded then some 0 else none) := by
    cases hids : ids with
    | nil =>
      have hsrc : ap.sources.length = 0 := by
        rw [← hlen, hids]
        rfl
      simp [AnalysisPoint.combined_value_by_id, hsrc]
    | cons i rest =>
      have hne : ids.isEmpty = false := by rw [hids]; rfl
      rw [← hids]
      simp [AnalysisPoint.combined_value_by_id, hne, hlen]
  constructor
  · intro hpres
    rw [hunf, combineLoop_ok ap.values hoy ids.enum hpres]
    cases hd : ap.isDirectLoaded <;> simp
  · intro hmiss
    rw [hunf, combineLoop_missing ap.values hoy ids.enum hmiss]

/-- A sensor with two single-state sources, populated through
`set_coupled_value` at hour 7. -/
def apC4 : AnalysisPoint :=
  (({ sources := [⟨"sky", ["default"]⟩, ⟨"w", ["default"]⟩], values := [],
      isDirectLoaded := false, hoys := [7], id := 0 } :
    AnalysisPoint).set_coupled_value 100 20 7 0 0).set_coupled_value
      50 10 7 1 0

/-- Witness for C4 on `apC4` with a full combination. -/
theorem claim_C4_witness :
    (([0, 0] : List Int).length = apC4.sources.length ∧
      apC4.combined_value_by_id 7 (some [0, 0]) =
        .ok ((([0, 0] : List Int).enum.map (entryTotal apC4.values 7)).sum,
          if apC4.isDirectLoaded then
            some ((([0, 0] : List Int).enum.map
              (entryDirect apC4.values 7)).sum)
          else none)) ∧
    apC4.combined_value_by_id 7 (some [0, -1]) =
      .ok ((([0, -1] : List Int).enum.map (entryTotal apC4.values 7)).sum,
        if apC4.isDirectLoaded then
          some ((([0, -1] : List Int).enum.map
            (entryDirect apC4.values 7)).sum)
        else none) := by
  refine ⟨⟨rfl, ?_⟩, ?_⟩
  · refine (claim_C4 apC4 7 [0, 0] rfl).1 ?_
    intro p hp _
    have hp' : p = (0, 0) ∨ p = (1, 0) := by
      simpa [List.enum] using hp
    rcases hp' with h | h <;> subst h
    · exact ⟨100, 20, rfl⟩
    · exact ⟨50, 10, rfl⟩
  · refine (claim_C4 apC4 7 [0, -1] rfl).1 ?_
    intro p hp hne
    have hp' : p = (0, 0) ∨ p = (1, -1) := by
      simpa [List.enum] using hp
    rcases hp' with h | h <;> subst h
    · exact ⟨100, 20, rfl⟩
    · exact absurd rfl hne

/-- One source with three states whose combinations at hour 0 produce
totals [100, 200, 300] and DIRECT values [5000, 2000, 500]. -/
def apC2dir : AnalysisPoint :=
  { sources := [⟨"w", ["clear", "mid", "dark"]⟩],
    values := [((0, 0, 0), (100, some 5000)), ((0, 1, 0), (200, some 2000)),
      ((0, 2, 0), (300, some 500))],
    isDirectLoaded := true, hoys := [0], id := 0 }

/-- One source with three states whose combinations at hour 0 produce
TOTAL values [5000, 2000, 500]. -/
def apC2tot : AnalysisPoint :=
  { sources := [⟨"w", ["clear", "mid", "dark"]⟩],
    values := [((0, 0, 0), (5000, some 40)), ((0, 1, 0), (2000, some 30)),
      ((0, 2, 0), (500, some 20))],
    isDirectLoaded := true, hoys := [0], id := 0 }

theorem blinds_state_none_unfold (ap : AnalysisPoint)
    (logic : ℚ → Option ℚ → Nat → Bool) (combs : List (List Int))
    (results : List (List (ℚ × Option ℚ)))
    (h1 : ap.longest_state_ids = .ok combs)
    (h2 : mapExcept (fun state => ap.combined_values_by_id ap.hoys
      (some (List.replicate ap.hoys.length state))) combs = .ok results) :
    ap.blinds_state logic none none =
      .ok ((ap.hoys.enum.map (fun p =>
          greedyHour logic combs.length results p.1 p.2)).map
            (fun o => combs.getD o.1 []),
        (ap.hoys.enum.map (fun p =>
          greedyHour logic combs.length results p.1 p.2)).map (·.1),
        (ap.hoys.enum.map (fun p =>
          greedyHour logic combs.length results p.1 p.2)).map (·.2.1),
        (ap.hoys.enum.map (fun p =>
          greedyHour logic combs.length results p.1 p.2)).map (·.2.2.1),
        (ap.hoys.enum.map (fun p =>
          greedyHour logic combs.length results p.1 p.2)).map (·.2.2.2)) := by
  show (ap.longest_state_ids).bind _ = _
  rw [h1]
  show (mapExcept _ combs).bind _ = _
  rw [h2]
  rfl

theorem combined_values_one (ap : AnalysisPoint) (h : Nat) (s : Int)
    (hdir : ap.isDirectLoaded = true) (hs : ¬ s = -1) (t : ℚ) (d : Option ℚ)
    (hl : lookupVal ap.values (0, s, h) = some (t, d)) :
    ap.combined_values_by_id [h] (some [[s]]) =
      .ok [(0 + t, addOpt (some 0) d)] := by
  show mapExcept (fun p => combineLoop ap.values p.1 p.2.enum
      (0, if ap.isDirectLoaded then some 0 else none)) [(h, [s])] = _
  simp only [hdir]
  show (combineLoop ap.values h [(0, s)] (0, some 0)).bind
      (fun b => Except.ok [b]) = _
  rw [combineLoop, if_neg hs, hl]
  rfl

/-- C2 counterexample: the default control predicate is NOT
`direct > 3000`.  On a sensor whose three combinations produce direct
values [5000, 2000, 500] (with totals [100, 200, 300]), the greedy
selection under the default logic picks combination index 0, not the
index 1 that a `direct > 3000` predicate would give: `_logic` tests its
first positional argument, which is the combined total. -/
theorem claim_C2_counterexample :
    apC2dir.blinds_state logicDefault none none =
      .ok ([[0]], [0], [100], [some 5000], [0]) ∧
    ([0] : List Nat) ≠ [1] := by
  refine ⟨?_, by decide⟩
  have h1 : apC2dir.longest_state_ids = .ok [[0], [1], [2]] := by decide
  have hr0 : apC2dir.combined_values_by_id apC2dir.hoys
      (some (List.replicate apC2dir.hoys.length [0])) =
      .ok [(100, some 5000)] := by
    have hx := combined_values_one apC2dir 0 0 rfl (by decide)
      100 (some 5000) (by decide)
    simp only [addOpt, zero_add] at hx
    exact hx
  have hr1 : apC2dir.combined_values_by_id apC2dir.hoys
      (some (List.replicate apC2dir.hoys.length [1])) =
      .ok [(200, some 2000)] := by
    have hx := combined_values_one apC2dir 0 1 rfl (by decide)
      200 (some 2000) (by decide)
    simp only [addOpt, zero_add] at hx
    exact hx
  have hr2 : apC2dir.combined_values_by_id apC2dir.hoys
      (some (List.replicate apC2dir.hoys.length [2])) =
      .ok [(300, some 500)] := by
    have hx := combined_values_one apC2dir 0 2 rfl (by decide)
      300 (some 500) (by decide)
    simp only [addOpt, zero_add] at hx
    exact hx
  have h2 : mapExcept (fun state =>
      apC2dir.combined_values_by_id apC2dir.hoys
        (some (List.replicate apC2dir.hoys.length state))) [[0], [1], [2]] =
      .ok [[(100, some 5000)], [(200, some 2000)], [(300, some 500)]] := by
    simp only [mapExcept, Except.bind, hr0, hr1, hr2]
  rw [blinds_state_none_unfold apC2dir logicDefault [[0], [1], [2]]
    [[(100, some 5000)], [(200, some 2000)], [(300, some 500)]] h1 h2]
  norm_num [apC2dir, List.enum, List.enumFrom, greedyHour, findState,
    logicDefault, List.getD_cons_zero, decide_eq_true_eq]

/-- C2 amended: in per-hour greedy blind-state selection, for each hour
independently the candidate combinations are evaluated in ascending order
(index 0 = most open); the first combination for which the control
predicate returns false is selected (success flag 1 unless it is index
0), and if the predicate returns true for every combination the last
(darkest) combination is selected with success flag −1 (forced).  The
default control predicate is TOTAL > 3000 lux (`_logic` receives the
combined total as its first argument), so for one hour whose combinations
produce total values [5000, 2000, 500], combination index 1 is selected. -/
theorem claim_C2_amended :
    (∀ (logic : ℚ → Option ℚ → Nat → Bool)
      (results : List (List (ℚ × Option ℚ))) (k h : Nat)
      (col : List (ℚ × Option ℚ)),
      col = results.map (fun row => row.getD k (0, none)) →
      ((∀ i, i < col.length →
        (∀ j, j < i →
          logic (col.getD j (0, none)).1 (col.getD j (0, none)).2 h = true) →
        logic (col.getD i (0, none)).1 (col.getD i (0, none)).2 h = false →
        greedyHour logic results.length results k h =
          (i, (col.getD i (0, none)).1, (col.getD i (0, none)).2,
            if 0 < i then 1 else 0)) ∧
      ((∀ j, j < col.length →
          logic (col.getD j (0, none)).1 (col.getD j (0, none)).2 h = true) →
        greedyHour logic results.length results k h =
          (results.length - 1, (col.getLast?.getD (0, none)).1,
            (col.getLast?.getD (0, none)).2, -1))))
    ∧ apC2tot.blinds_state logicDefault none none =
        .ok ([[1]], [1], [2000], [some 30], [1]) := by
  constructor
  · intro logic results k h col hcol
    constructor
    · intro i hi hprev hcur
      rw [greedyHour, ← hcol,
        findState_found logic h col i hi hprev hcur 0, Nat.zero_add]
    · intro hall
      rw [greedyHour, ← hcol, findState_none logic h col hall 0]
  · have h1 : apC2tot.longest_state_ids = .ok [[0], [1], [2]] := by decide
    have hr0 : apC2tot.combined_values_by_id apC2tot.hoys
        (some (List.replicate apC2tot.hoys.length [0])) =
        .ok [(5000, some 40)] := by
      have hx := combined_values_one apC2tot 0 0 rfl (by decide)
        5000 (some 40) (by decide)
      simp only [addOpt, zero_add] at hx
      exact hx
    have hr1 : apC2tot.combined_values_by_id apC2tot.hoys
        (some (List.replicate apC2tot.hoys.length [1])) =
        .ok [(2000, some 30)] := by
      have hx := combined_values_one apC2tot 0 1 rfl (by decide)
        2000 (some 30) (by decide)
      simp only [addOpt, zero_add] at hx
      exact hx
    have hr2 : apC2tot.combined_values_by_id apC2tot.hoys
        (some (List.replicate apC2tot.hoys.length [2])) =
        .ok [(500, some 20)] := by
      have hx := combined_values_one apC2tot 0 2 rfl (by decide)
        500 (some 20) (by decide)
      simp only [addOpt, zero_add] at hx
      exact hx
    have h2 : mapExcept (fun state =>
        apC2tot.combined_values_by_id apC2tot.hoys
          (some (List.replicate apC2tot.hoys.length state))) [[0], [1], [2]] =
        .ok [[(5000, some 40)], [(2000, some 30)], [(500, some 20)]] := by
      simp only [mapExcept, Except.bind, hr0, hr1, hr2]
    rw [blinds_state_none_unfold apC2tot logicDefault [[0], [1], [2]]
      [[(5000, some 40)], [(2000, some 30)], [(500, some 20)]] h1 h2]
    norm_num [apC2tot, List.enum, List.enumFrom, greedyHour, findState,
      logicDefault, List.getD_cons_zero, decide_eq_true_eq]

/-- Witness for C2 exercising both greedy branches on a concrete column. -/
theorem claim_C2_amended_witness :
    greedyHour logicDefault 2 [[(5000, none)], [(100, none)]] 0 0 =
      (1, 100, none, 1) ∧
    greedyHour logicDefault 2 [[(5000, none)], [(4000, none)]] 0 0 =
      (1, 4000, none, -1) := by
  constructor
  · have h := ((claim_C2_amended.1 logicDefault [[(5000, none)], [(100, none)]]
      0 0 [(5000, none), (100, none)]) (by
        norm_num [List.getD])).1 1 (by norm_num)
      (by
        intro j hj
        have hj0 : j = 0 := by omega
        subst hj0
        norm_num [List.getD_cons_zero, logicDefault])
      (by norm_num [List.getD_cons_succ, List.getD_cons_zero, logicDefault])
    simpa using h
  · have h := ((claim_C2_amended.1 logicDefault [[(5000, none)], [(4000, none)]]
      0 0 [(5000, none), (4000, none)]) (by
        norm_num [List.getD])).2 (by
        intro j hj
        rcases j with _ | j
        · norm_num [List.getD_cons_zero, logicDefault]
        · simp only [List.length_cons, List.length_nil] at hj
          have hj0 : j = 0 := by omega
          subst hj0
          norm_num [List.getD_cons_succ, List.getD_cons_zero, logicDefault])
    simpa [List.getLast?] using h

/-- A sensor with one single-state source and loaded (total, direct)
values for hours 10 and 11. -/
def apC6 : AnalysisPoint :=
  { sources := [⟨"sky", ["default"]⟩],
    values := [((0, 0, 10), (500, some 100)), ((0, 0, 11), (200, some 50))],
    isDirectLoaded := true, hoys := [10, 11], id := 0 }

/-- C6 (code bug): under the documented defaults the single-pass
`annual_metrics` does NOT agree with calling `daylight_autonomy` and
`useful_daylight_illuminance` separately.  `_calculate_annual_metrics`
unpacks `udi_min_max` BEFORE the line that would default it to
(100, 2000), so the default call raises `TypeError` while the separate
calls succeed with (50, 250/3) and (100, 0, 0); moreover its default
schedule is the workday schedule while the separate functions default to
all hours, so even with explicit UDI bounds the default-schedule results
disagree (100 vs 50 for DA with workday hours [10]). -/
theorem claim_C6 :
    apC6.annual_metrics [10, 11] none none none none = .error .typeError ∧
    apC6.daylight_autonomy none none none = .ok (50, 250 / 3) ∧
    apC6.useful_daylight_illuminance none none none = .ok (100, 0, 0) ∧
    apC6.annual_metrics [10] none (some (100, 2000)) none none =
      .ok (100, 100, 100, 0, 0) ∧
    (100 : ℚ) ≠ 50 := by
  have hcomb : apC6.combined_values_by_id apC6.hoys none =
      .ok [(500, some 100), (200, some 50)] := by
    show Except.ok [((0 : ℚ) + 500, addOpt (some 0) (some 100)),
      ((0 : ℚ) + 200, addOpt (some 0) (some 50))] = _
    simp only [addOpt, zero_add]
  refine ⟨?_, ?_, ?_, ?_, by norm_num⟩
  · show (apC6.combined_values_by_id apC6.hoys none).bind _ = _
    rw [hcomb]
    rfl
  · show (apC6.combined_values_by_id apC6.hoys none).bind _ = _
    rw [hcomb]
    show daylight_autonomy_core [500, 200] [10, 11] none none = _
    norm_num [daylight_autonomy_core, daLoop, orDefaultQ, schedOrDefault,
      List.zip_cons_cons]
  · show (apC6.combined_values_by_id apC6.hoys none).bind _ = _
    rw [hcomb]
    show useful_daylight_illuminance_core [500, 200] [10, 11] none none = _
    norm_num [useful_daylight_illuminance_core, udiLoop, schedOrDefault,
      List.zip_cons_cons]
  · show (apC6.combined_values_by_id apC6.hoys none).bind _ = _
    rw [hcomb]
    show calculate_annual_metrics [10] [500, 200] [10, 11] none
      (some (100, 2000)) none = _
    norm_num [calculate_annual_metrics, amLoop, orDefaultQ, schedOrDefault,
      List.zip_cons_cons]

/-- C5: given identical underlying hourly numbers — each streamed row
equal to the resident combined totals of the corresponding sensor under
the default all-open blind states, with matching hours — the
memory-resident and file-streaming branches of the grid-level
`annual_metrics` and `spatial_daylight_autonomy` produce identical
outputs, because both reduce each sensor's row through the same per-row
metric code. -/
theorem claim_C5 (g : GridContext) (rows : List (List ℚ))
    (thr : Option ℚ) (udi : Option (ℚ × ℚ)) (tda : Option ℚ)
    (sched : Option (List Nat))
    (hlen : g.analysis_points.length = rows.length)
    (hpt : ∀ pr ∈ g.analysis_points.zip rows,
      pr.1.hoys = g.hoys ∧
      ∃ vs, pr.1.combined_values_by_id g.hoys (some (defaultStateIds g)) =
          .ok vs ∧ pr.2 = vs.map (·.1)) :
    gridAnnualMetricsLoaded g thr udi none sched =
      gridAnnualMetricsStream g rows g.hoys thr udi sched ∧
    gridSpatialDALoaded g thr tda none sched =
      gridSpatialDAStream g rows g.hoys thr tda sched := by
  constructor
  · have hm : mapExcept (fun ap => ap.annual_metrics g.workday
        (some (orDefaultQ thr 300)) (some (udi.getD (100, 3000)))
        (some (defaultStateIds g)) (some (schedOrDefault sched g.workday)))
        g.analysis_points =
      mapExcept (fun row => calculate_annual_metrics g.workday row g.hoys
        (some (orDefaultQ thr 300)) (some (udi.getD (100, 3000)))
        (some (schedOrDefault sched g.workday))) rows := by
      apply mapExcept_congr _ _ _ _ hlen
      intro pr hpr
      obtain ⟨hh, vs, hvs, hrow⟩ := hpt pr hpr
      show (pr.1.combined_values_by_id pr.1.hoys
        (some (defaultStateIds g))).bind _ = _
      simp only [hh]
      rw [hvs]
      simp only [Except.bind]
      rw [hrow]
    show (mapExcept (fun ap => ap.annual_metrics g.workday
        (some (orDefaultQ thr 300)) (some (udi.getD (100, 3000)))
        (some (defaultStateIds g)) (some (schedOrDefault sched g.workday)))
        g.analysis_points).bind (fun rs => .ok (transpose5 rs)) =
      (mapExcept (fun row => calculate_annual_metrics g.workday row g.hoys
        (some (orDefaultQ thr 300)) (some (udi.getD (100, 3000)))
        (some (schedOrDefault sched g.workday))) rows).bind
        (fun rs => .ok (transpose5 rs))
    rw [hm]
  · have hm2 : mapExcept (fun ap => ap.daylight_autonomy
        (some (orDefaultQ thr 300)) (some (defaultStateIds g))
        (some (schedOrDefault sched g.workday))) g.analysis_points =
      mapExcept (fun row => calculate_daylight_autonomy row g.hoys
        (some (orDefaultQ thr 300)) (some (schedOrDefault sched g.workday)))
        rows := by
      apply mapExcept_congr _ _ _ _ hlen
      intro pr hpr
      obtain ⟨hh, vs, hvs, hrow⟩ := hpt pr hpr
      show (pr.1.combined_values_by_id pr.1.hoys
        (some (defaultStateIds g))).bind _ = _
      simp only [hh]
      rw [hvs]
      simp only [Except.bind]
      rw [hrow, daylight_core_eq_calculate]
    show (mapExcept (fun ap => ap.daylight_autonomy
        (some (orDefaultQ thr 300)) (some (defaultStateIds g))
        (some (schedOrDefault sched g.workday))) g.analysis_points).bind
        (fun rs => .ok (sdaTail g.analysis_points (rs.map (·.1))
          (orDefaultQ tda 50))) =
      (mapExcept (fun row => calculate_daylight_autonomy row g.hoys
        (some (orDefaultQ thr 300)) (some (schedOrDefault sched g.workday)))
        rows).bind (fun rs => .ok (sdaTail g.analysis_points (rs.map (·.1))
          (orDefaultQ tda 50)))
    rw [hm2]

/-- A one-sensor grid context for the C5 witness. -/
def apC5 : AnalysisPoint :=
  { sources := [⟨"sky", ["default"]⟩],
    values := [((0, 0, 0), (450, some 50))],
    isDirectLoaded := true, hoys := [0], id := 0 }

/-- Grid context owning `apC5`. -/
def gC5 : GridContext :=
  { analysis_points := [apC5], hoys := [0], sources_count := 1,
    workday := [0] }

/-- Witness for C5 on the one-sensor grid whose streamed row matches its
resident totals. -/
theorem claim_C5_witness :
    gridAnnualMetricsLoaded gC5 none none none none =
      gridAnnualMetricsStream gC5 [[450]] gC5.hoys none none none ∧
    gridSpatialDALoaded gC5 none none none none =
      gridSpatialDAStream gC5 [[450]] gC5.hoys none none none := by
  have hc : apC5.combined_values_by_id gC5.hoys
      (some (defaultStateIds gC5)) = .ok [(450, some 50)] := by
    show Except.ok [((0 : ℚ) + 450, addOpt (some 0) (some 50))] = _
    simp only [addOpt, zero_add]
  have h := claim_C5 gC5 [[450]] none none none none rfl ?_
  · exact h
  · intro pr hpr
    have hpr' : pr = (apC5, [450]) := by
      simpa [gC5, List.zip_cons_cons] using hpr
    subst hpr'
    exact ⟨rfl, [(450, some 50)], hc, by norm_num⟩

end Honeybee
